import Mathlib

/-!
Verification of the core calculations of the GenAI Wealth Advisor app
(`src/app.py`): the risk-profile allocation table, the inline SIP
(systematic-investment-plan) monthly-contribution computation, the CAGR
estimator `fetch_cagr`, the caller-level mean-CAGR aggregation, and the
chat-completion wrapper `explain_portfolio`.

Modelling conventions:
* Python float arithmetic is modelled exactly: by `ℚ` where only field
  operations and integer powers occur (SIP, mean aggregation), and by `ℝ`
  where a fractional power occurs (CAGR).
* Python `round` (and `round(x, k)`) is modelled by Mathlib `round`
  (round half up; Python rounds half to even, but no value arising in the
  claims sits at a tie, so the two agree on every input considered here).
* A Python statement that raises an uncaught exception is modelled as the
  result `none` of an `Option`-valued function; code paths whose
  exceptions are swallowed by a `try/except` returning a value are
  modelled by returning that value.
-/

/-! ### Allocation table (`get_portfolio_allocation`, app.py lines 36-41) -/

/-- The three risk-tolerance categories offered by the UI selectbox. -/
inductive RiskProfile where
  | Low
  | Medium
  | High
deriving DecidableEq

/-- A percentage split across the three asset classes, keyed as in the
source dict literal. -/
structure Allocation where
  Equity : ℕ
  Debt : ℕ
  Gold : ℕ
deriving DecidableEq

/-- `get_portfolio_allocation(risk)`: fixed dict-literal lookup from the
risk category to the percentage split (app.py lines 36-41). -/
def get_portfolio_allocation : RiskProfile → Allocation
  | .Low => ⟨30, 60, 10⟩
  | .Medium => ⟨50, 40, 10⟩
  | .High => ⟨70, 20, 10⟩

/-! ### SIP computation (app.py lines 135-137)

```
months = years * 12
monthly_rate = rate / 100 / 12
monthly = round(target * monthly_rate / ((1 + monthly_rate) ** months - 1))
```

There is no input validation and no special case for `rate = 0`; when the
denominator `(1 + monthly_rate) ** months - 1` is zero the Python division
raises an uncaught `ZeroDivisionError`, modelled here as `none`. -/

/-- The inline SIP computation of app.py lines 135-137, with the
division-by-zero fault made explicit as `none`. -/
def sip_monthly (target rate : ℚ) (years : ℕ) : Option ℤ :=
  let months := years * 12
  let monthly_rate := rate / 100 / 12
  let denom := (1 + monthly_rate) ^ months - 1
  if denom = 0 then none
  else some (round (target * monthly_rate / denom))

/-- The SIP annuity expression before Python's `round` is applied:
`target * monthly_rate / ((1 + monthly_rate) ** months - 1)`
(app.py lines 135-137). -/
def sip_unrounded (target rate : ℚ) (years : ℕ) : ℚ :=
  let monthly_rate := rate / 100 / 12
  target * monthly_rate / ((1 + monthly_rate) ^ (years * 12) - 1)

/-! ### Mean-CAGR aggregation (app.py lines 157-161)

```
valid = [v for v in returns.values() if v is not None]
if valid:
    st.info(f"Average CAGR: {round(sum(valid)/len(valid),2)}%")
else:
    st.warning("Could not fetch CAGR data. ...")
```
-/

/-- Python `round(x, 2)` on an exact rational value. -/
def round2Q (x : ℚ) : ℚ := (round (x * 100) : ℚ) / 100

/-- The caller-level mean-CAGR aggregation of app.py lines 157-161:
filter out the absent (`None`) per-asset values; if none remain, the
"no data" warning path is taken (modelled as `none`); otherwise the
displayed average `round(sum(valid)/len(valid), 2)`. -/
def mean_cagr (returns : List (Option ℚ)) : Option ℚ :=
  let valid := returns.filterMap id
  if valid = [] then none
  else some (round2Q (valid.sum / (valid.length : ℚ)))

/-! ### Chat-completion wrapper (`explain_portfolio`, app.py lines 44-64)

The source posts to the chat-completions endpoint inside a `try`, calls
`response.json()`, and returns `data["choices"][0]["message"]["content"]`;
any exception (network fault, non-JSON body, missing key, bad index)
falls through to the fixed fallback sentence. The HTTP status code is
never inspected. We model the outcome of the network call as
`Except Unit (ℕ × Option Json)`: `.error` when `requests.post` raises, and
otherwise the status code paired with the parsed body (`none` when
`response.json()` raises on a non-JSON body). -/

/-- A parsed JSON value, as handed back by `response.json()`. -/
inductive Json where
  | null : Json
  | str : String → Json
  | num : ℚ → Json
  | arr : List Json → Json
  | obj : List (String × Json) → Json

/-- Python `value[key]` subscripting on a parsed JSON value: a key lookup
succeeds only on an object containing the key; every other case raises
(`KeyError`/`TypeError`), modelled as `none`. -/
def Json.getField : Json → String → Option Json
  | .obj fields, key => fields.lookup key
  | _, _ => none

/-- Python `value[i]` integer subscripting: succeeds only on an array that
is long enough; every other case raises, modelled as `none`. -/
def Json.getIndex : Json → ℕ → Option Json
  | .arr elems, i => elems.get? i
  | _, _ => none

/-- The fixed fallback sentence of app.py line 64. -/
def fallback_text : String :=
  "Based on your risk tolerance and age, a diversified portfolio of equity, debt, and gold is recommended. Equity provides high returns, debt ensures safety, and gold adds stability."

/-- The access path `data["choices"][0]["message"]["content"]` of
app.py line 61; `none` means the corresponding Python expression raises. -/
def extract_content (data : Json) : Option Json :=
  (((data.getField ("choices")).bind fun c => c.getIndex 0).bind fun m =>
    m.getField ("message")).bind fun m => m.getField ("content")

/-- `explain_portfolio` (app.py lines 44-64), as a function of the outcome
of the network call: any raised exception on the path — the post itself,
JSON parsing, or the field accesses — yields the fallback sentence;
otherwise the extracted content is returned. The status code in the
response is carried but, as in the source, never consulted. -/
def explain_portfolio (resp : Except Unit (ℕ × Option Json)) : Json :=
  match resp with
  | .error _ => .str fallback_text
  | .ok (_, none) => .str fallback_text
  | .ok (_, some data) =>
    match extract_content data with
    | none => .str fallback_text
    | some c => c

/-! ### CAGR estimator (`fetch_cagr`, app.py lines 67-78)

```
def fetch_cagr(ticker, years=5):
    try:
        ...
        data = yf.download(ticker, start=start, end=end, progress=False)
        if data.empty:
            return None
        start_price = data["Adj Close"].iloc[0]
        end_price = data["Adj Close"].iloc[-1]
        return round(((end_price / start_price) ** (1 / years) - 1) * 100, 2)
    except:
        return None
```

The download outcome is modelled as `Except Unit (List ℝ)`: `.error` when
`yf.download` raises, otherwise the chronological `Adj Close` series.
Exceptions swallowed by the bare `except` are modelled explicitly:
`start_price = 0` makes the division raise `ZeroDivisionError`;
`years = 0` makes `1 / years` raise `ZeroDivisionError`; a negative ratio
makes `**` return a complex number on which `round` raises `TypeError`.
Each yields `None`. A nonnegative ratio follows Python float semantics
exactly as the real power `(end/start) ^ (1/years)` (with `0 ** x = 0` for
`x > 0`, matching `Real.rpow`). -/

/-- Python `round(x, 2)` on a real value. -/
noncomputable def round2 (x : ℝ) : ℝ := ((round (x * 100) : ℤ) : ℝ) / 100

/-- `fetch_cagr` (app.py lines 67-78) as a function of the download
outcome; `none` models Python `None`. -/
noncomputable def fetch_cagr (fetch : Except Unit (List ℝ)) (years : ℕ) :
    Option ℝ :=
  match fetch with
  | .error _ => none
  | .ok data =>
    if data = [] then none
    else
      let start_price : ℝ := data.headD 0
      let end_price : ℝ := data.getLastD 0
      if start_price = 0 then none
      else if years = 0 then none
      else if end_price / start_price < 0 then none
      else some (round2 (((end_price / start_price) ^ ((1 : ℝ) / years) - 1)
        * 100))

/-! ### Theorems -/

/-- C7: the allocation lookup returns exactly the fixed table:
Low → Equity 30 / Debt 60 / Gold 10, Medium → 50/40/10,
High → 70/20/10. -/
theorem allocation_table_values :
    get_portfolio_allocation .Low = ⟨30, 60, 10⟩ ∧
    get_portfolio_allocation .Medium = ⟨50, 40, 10⟩ ∧
    get_portfolio_allocation .High = ⟨70, 20, 10⟩ :=
  ⟨rfl, rfl, rfl⟩

/-- C8: for every risk profile, the three allocation percentages sum to
exactly 100. -/
theorem allocation_sums_to_100 (r : RiskProfile) :
    (get_portfolio_allocation r).Equity + (get_portfolio_allocation r).Debt +
      (get_portfolio_allocation r).Gold = 100 := by
  cases r <;> rfl

/-- C1 (code bug): at `annualRatePercent = 0` the denominator
`(1 + 0) ** 120 - 1` is zero and the source raises an uncaught
`ZeroDivisionError` instead of returning `targetCorpus / (years*12)`;
the `r = 0` case is not special-cased anywhere in app.py. -/
theorem sip_rate_zero_faults : sip_monthly 5000000 0 10 = none := by
  simp [sip_monthly]

/-- C2 (code bug): at `targetCorpus = 0` (rate 12 %, 10 years) the source
computes and displays the numeric contribution `0`; no `InvalidInput`
rejection of non-positive targets exists anywhere in app.py. -/
theorem sip_zero_target_numeric : sip_monthly 0 12 10 = some 0 := by
  have hgt : (1 : ℚ) < (1 + 12 / 100 / 12) ^ (10 * 12) := by
    apply one_lt_pow₀ (by norm_num) (by norm_num)
  have hd : (1 + (12 : ℚ) / 100 / 12) ^ (10 * 12) - 1 ≠ 0 := by linarith
  simp [sip_monthly, hd]

/-- The exact value of the SIP computation at the spec's worked example:
target 5,000,000, annual rate 12 %, 10 years. The unrounded quotient is
`50000 * 100^120 / (101^120 - 100^120) ≈ 21735.47`. -/
lemma sip_value_12pct_10y : sip_monthly 5000000 12 10 = some 21735 := by
  have hgt : (1 : ℚ) < (1 + 12 / 100 / 12) ^ (10 * 12) := by
    apply one_lt_pow₀ (by norm_num) (by norm_num)
  have hd : (1 + (12 : ℚ) / 100 / 12) ^ (10 * 12) - 1 ≠ 0 := by linarith
  simp only [sip_monthly, if_neg hd, Option.some.injEq]
  rw [round_eq, Int.floor_eq_iff]
  constructor
  · norm_num
  · norm_num

/-- C4 (counterexample): the SIP computation at (5,000,000; 12.0; 10)
does not round to 21,567 as the spec states. -/
theorem sip_example_not_21567 : sip_monthly 5000000 12 10 ≠ some 21567 := by
  rw [sip_value_12pct_10y]
  decide

/-- C4 (amended): `requiredMonthly(5,000,000; 12.0; 10)`, computed per the
source formula `round(target * r / ((1+r)^n - 1))` with `r = 12/100/12`
and `n = 120`, equals 21,735 (the unrounded value is ≈ 21,735.47), not
the 21,567 stated in the spec. -/
theorem sip_example_value : sip_monthly 5000000 12 10 = some 21735 :=
  sip_value_12pct_10y

/-- C6: the mean-CAGR aggregation averages exactly the present (non-None)
per-asset values — `{Equity: 10.0, Debt: absent, Gold: 5.0}` yields 7.5 —
it yields the "no data" signal (`none`) whenever every value is absent,
and it yields `none` only in that all-absent case (in particular it never
degrades an all-absent input to the number zero). -/
theorem mean_cagr_spec :
    mean_cagr [some 10, none, some 5] = some (15 / 2) ∧
    (∀ returns : List (Option ℚ), (∀ x ∈ returns, x = none) →
      mean_cagr returns = none) ∧
    (∀ returns : List (Option ℚ), mean_cagr returns = none →
      returns.filterMap id = []) := by
  refine ⟨?_, ?_, ?_⟩
  · simp only [mean_cagr, round2Q]
    norm_num [List.filterMap_cons, round_eq]
    intro h
    simp at h
  · intro returns h
    have hnil : returns.filterMap id = [] := by
      rw [List.filterMap_eq_nil_iff]
      intro a ha
      simpa using h a ha
    simp [mean_cagr, hnil]
  · intro returns h
    by_cases hnil : returns.filterMap id = []
    · exact hnil
    · simp [mean_cagr, hnil] at h

/-- Closed-form instances of the aggregation theorem: the worked example
and an all-absent input, obtained by applying the theorem itself. -/
theorem mean_cagr_spec_witness :
    mean_cagr [some 10, none, some 5] = some (15 / 2) ∧
    mean_cagr [none, none, none] = none :=
  ⟨mean_cagr_spec.1, mean_cagr_spec.2.1 [none, none, none] (by decide)⟩

/-- C10: for any fixed rate > 0 and years ≥ 1 the unrounded SIP
contribution is homogeneous in the target corpus (scaling the target by k
scales the contribution by k), strictly positive for positive targets,
and strictly increasing in the target. -/
theorem sip_unrounded_linear (rate : ℚ) (years : ℕ)
    (hr : 0 < rate) (hy : 1 ≤ years) :
    (∀ k t : ℚ, sip_unrounded (k * t) rate years =
      k * sip_unrounded t rate years) ∧
    (∀ t : ℚ, 0 < t → 0 < sip_unrounded t rate years) ∧
    (∀ t₁ t₂ : ℚ, 0 < t₁ → t₁ < t₂ →
      sip_unrounded t₁ rate years < sip_unrounded t₂ rate years) := by
  have hm : 0 < rate / 100 / 12 := by positivity
  have hgt : (1 : ℚ) < (1 + rate / 100 / 12) ^ (years * 12) := by
    apply one_lt_pow₀ (by linarith) (by positivity)
  have hD : 0 < (1 + rate / 100 / 12) ^ (years * 12) - 1 := by linarith
  refine ⟨?_, ?_, ?_⟩
  · intro k t
    simp only [sip_unrounded]
    ring
  · intro t ht
    exact div_pos (mul_pos ht hm) hD
  · intro t₁ t₂ _ hlt
    simp only [sip_unrounded]
    apply (div_lt_div_iff_of_pos_right hD).mpr
    exact (mul_lt_mul_right hm).mpr hlt

/-- Closed-form instance of the linearity theorem at rate 12 %, 10 years,
targets 1000 and 2000, obtained by applying the theorem itself. -/
theorem sip_unrounded_linear_witness :
    sip_unrounded (2 * 1000) 12 10 = 2 * sip_unrounded 1000 12 10 ∧
    0 < sip_unrounded 1000 12 10 ∧
    sip_unrounded 1000 12 10 < sip_unrounded 2000 12 10 := by
  obtain ⟨h1, h2, h3⟩ := sip_unrounded_linear 12 10 (by norm_num) (by norm_num)
  exact ⟨h1 2 1000, h2 1000 (by norm_num), h3 1000 2000 (by norm_num) (by norm_num)⟩

/-- C5 (counterexample): the HTTP status is never inspected, so a
non-2xx response (here 500) whose body still carries
`choices[0].message.content` returns that content, not the fallback
sentence. -/
theorem explain_portfolio_ignores_status :
    explain_portfolio (.ok (500, some (Json.obj [(("choices"),
        Json.arr [Json.obj [(("message"),
          Json.obj [(("content"), Json.str ("Hold more equity."))])]])]))) ≠
      Json.str fallback_text := by
  simp [explain_portfolio, extract_content, Json.getField, Json.getIndex,
    fallback_text]

/-- C5 (amended): the fallback sentence is returned exactly when the post
raises, the body is not JSON, or the `choices[0].message.content` path is
missing or malformed; the status code is never consulted, so whenever that
path is present its content is returned whatever the status. -/
theorem explain_portfolio_fallback_cases (status : ℕ) (data : Json) :
    explain_portfolio (.error ()) = .str fallback_text ∧
    explain_portfolio (.ok (status, none)) = .str fallback_text ∧
    (extract_content data = none →
      explain_portfolio (.ok (status, some data)) = .str fallback_text) ∧
    (∀ c, extract_content data = some c →
      explain_portfolio (.ok (status, some data)) = c) := by
  refine ⟨rfl, rfl, ?_, ?_⟩
  · intro h
    simp [explain_portfolio, h]
  · intro c h
    simp [explain_portfolio, h]

/-- Closed-form instances of the fallback theorem: a body with no
`choices` key falls back, and a well-formed body is passed through,
obtained by applying the theorem itself. -/
theorem explain_portfolio_fallback_cases_witness :
    explain_portfolio (.ok (200, some (Json.obj []))) =
      Json.str fallback_text ∧
    explain_portfolio (.ok (404, some (Json.obj [(("choices"),
        Json.arr [Json.obj [(("message"),
          Json.obj [(("content"), Json.str ("ok"))])]])]))) =
      Json.str ("ok") :=
  ⟨(explain_portfolio_fallback_cases 200 (Json.obj [])).2.2.1 rfl,
    (explain_portfolio_fallback_cases 404 _).2.2.2 _ rfl⟩

/-- C3 (counterexample): a series whose first price is negative is not
always `None`: with both endpoint prices negative the ratio is positive,
the power succeeds, and a numeric CAGR is returned, so `p0 ≤ 0` does not
imply an absent result. -/
theorem fetch_cagr_negative_start_numeric :
    fetch_cagr (.ok [-100, -200]) 5 ≠ none := by
  simp [fetch_cagr]
  norm_num

/-- C3 (amended): `fetch_cagr` returns `None` when the download raises,
when the series is empty, when the first price is exactly zero (the
division raises `ZeroDivisionError`), and when the price ratio `p1/p0` is
negative (the fractional power is complex and `round` raises
`TypeError`); a strictly negative `p0` alone does not force `None`. -/
theorem fetch_cagr_none_cases (years : ℕ) (data : List ℝ) :
    fetch_cagr (.error ()) years = none ∧
    (data = [] → fetch_cagr (.ok data) years = none) ∧
    (data.headD 0 = 0 → fetch_cagr (.ok data) years = none) ∧
    (data.getLastD 0 / data.headD 0 < 0 →
      fetch_cagr (.ok data) years = none) := by
  refine ⟨rfl, ?_, ?_, ?_⟩
  · intro h
    simp [fetch_cagr, h]
  · intro h
    by_cases hnil : data = []
    · simp [fetch_cagr, hnil]
    · simp_all [fetch_cagr]
  · intro h
    by_cases hnil : data = []
    · simp [fetch_cagr, hnil]
    · by_cases h0 : data.headD 0 = 0
      · simp_all [fetch_cagr]
      · by_cases hy : years = 0
        · simp_all [fetch_cagr]
        · simp_all [fetch_cagr]

/-- Closed-form instances of the `None` cases — a raising download, an
empty series, a zero first price, and opposite-signed endpoint prices —
obtained by applying the theorem itself. -/
theorem fetch_cagr_none_cases_witness :
    fetch_cagr (.error ()) 5 = none ∧
    fetch_cagr (.ok ([] : List ℝ)) 5 = none ∧
    fetch_cagr (.ok [0, 5]) 5 = none ∧
    fetch_cagr (.ok [1, -1]) 5 = none :=
  ⟨(fetch_cagr_none_cases 5 []).1,
    (fetch_cagr_none_cases 5 []).2.1 rfl,
    (fetch_cagr_none_cases 5 [0, 5]).2.2.1 (by norm_num),
    (fetch_cagr_none_cases 5 [1, -1]).2.2.2 (by norm_num)⟩

/-- `1.14865 ≤ 2 ^ (1/5)`, by raising both sides to the fifth power. -/
lemma two_rpow_fifth_lb : (114865 / 100000 : ℝ) ≤ (2 : ℝ) ^ ((1 : ℝ) / 5) := by
  have hpow : ((2 : ℝ) ^ ((1 : ℝ) / 5)) ^ (5 : ℕ) = 2 := by
    rw [← Real.rpow_natCast ((2 : ℝ) ^ ((1 : ℝ) / 5)) 5,
      ← Real.rpow_mul (by norm_num : (0 : ℝ) ≤ 2)]
    norm_num
  have hpos : (0 : ℝ) ≤ (2 : ℝ) ^ ((1 : ℝ) / 5) :=
    Real.rpow_nonneg (by norm_num) _
  apply le_of_pow_le_pow_left₀ (by norm_num : (5 : ℕ) ≠ 0) hpos
  rw [hpow]
  norm_num

/-- `2 ^ (1/5) < 1.14875`, by raising both sides to the fifth power. -/
lemma two_rpow_fifth_ub : (2 : ℝ) ^ ((1 : ℝ) / 5) < (114875 / 100000 : ℝ) := by
  have hpow : ((2 : ℝ) ^ ((1 : ℝ) / 5)) ^ (5 : ℕ) = 2 := by
    rw [← Real.rpow_natCast ((2 : ℝ) ^ ((1 : ℝ) / 5)) 5,
      ← Real.rpow_mul (by norm_num : (0 : ℝ) ≤ 2)]
    norm_num
  apply lt_of_pow_lt_pow_left₀ 5 (by norm_num : (0 : ℝ) ≤ 114875 / 100000)
  rw [hpow]
  norm_num

/-- C9: on the two-point series (100, 200) with a five-year lookback the
estimator returns `round(((200/100) ** (1/5) - 1) * 100, 2) = 14.87`. -/
theorem fetch_cagr_two_point :
    fetch_cagr (.ok [100, 200]) 5 = some (1487 / 100) := by
  have hlb := two_rpow_fifth_lb
  have hub := two_rpow_fifth_ub
  simp only [fetch_cagr]
  norm_num [round2]
  refine ⟨by simp, ?_⟩
  have hfloor : ⌊((2 : ℝ) ^ ((1 : ℝ) / 5) - 1) * 100 * 100 + 1 / 2⌋ =
      (1487 : ℤ) := by
    rw [Int.floor_eq_iff]
    push_cast
    constructor
    · linarith
    · linarith
  rw [round_eq, hfloor]
  norm_num
